import Mathlib

/-
  Verification of the node-drain, cordon, PDB-health and readiness-wait logic
  of crates/talos-pilot-tui/src/components/diagnostics/k8s.rs.

  The scheduler API (kube client) is modelled by oracles: each network call
  the code makes is represented by a function argument giving the outcome of
  that call.  Pure computations are translated directly.
-/

/-- Outcome of one eviction API call, as classified by the error-string
checks at k8s.rs lines 791-809: a 404 or not-found string is `notFound`,
a 429 or disruption-budget or Cannot-evict string is `pdbBlocked`, any
other error is `otherError`, and an Ok response is `ok`. -/
inductive EvictOutcome
  | ok
  | notFound
  | pdbBlocked
  | otherError
deriving DecidableEq, Repr

/-- Per-pod terminal accounting in the drain loop: the pod was counted as
evicted, or force-deleted (which also counts as evicted), or left failed. -/
inductive PodFate
  | evicted
  | forceDeleted
  | failed
deriving DecidableEq, Repr

/-- Contribution of a pod fate to the evicted counter (k8s.rs lines 772,
792, 849, 912 all increment it; the failed paths do not). -/
def fateEvictedDelta : PodFate → Nat
  | PodFate.evicted => 1
  | PodFate.forceDeleted => 1
  | PodFate.failed => 0

/-- Whether a pod fate pushes the pod onto failed_pods. -/
def fateFailed : PodFate → Bool
  | PodFate.failed => true
  | _ => false

/-- Whether a pod fate pushes the pod onto force_deleted_pods. -/
def fateForceDeleted : PodFate → Bool
  | PodFate.forceDeleted => true
  | _ => false

/-- A mutating scheduler-API call issued during a drain: an eviction request
or a direct pod delete, identified by the pod it targets. -/
inductive DrainEvent
  | evictCall (ns : String) (name : String)
  | deleteCall (ns : String) (name : String)
deriving DecidableEq, Repr

/-- Mirror of struct DrainOptions (k8s.rs lines 542-560). -/
structure DrainOptions where
  per_pod_timeout_secs : Nat
  grace_period_secs : Option Int
  force_delete_unmanaged : Bool
  ignore_daemonsets : Bool
  delete_emptydir_data : Bool
  wait_for_node_ready : Bool
  post_reboot_timeout_secs : Nat
  uncordon_after_reboot : Bool
deriving DecidableEq, Repr

/-- Mirror of the Default impl for DrainOptions (k8s.rs lines 562-575). -/
def drainOptionsDefault : DrainOptions :=
  { per_pod_timeout_secs := 30
    grace_period_secs := none
    force_delete_unmanaged := false
    ignore_daemonsets := true
    delete_emptydir_data := true
    wait_for_node_ready := true
    post_reboot_timeout_secs := 300
    uncordon_after_reboot := true }

/-- Mirror of struct DrainResult (k8s.rs lines 525-539); pods_evicted is a
usize counter, failed_pods and force_deleted_pods hold ns/name keys. -/
structure DrainResult where
  node : String
  success : Bool
  pods_evicted : Nat
  failed_pods : List String
  force_deleted_pods : List String
  error : Option String
deriving DecidableEq, Repr

/-- The facts about a pod (from the listed PodRecord) that the drain filter
and loop inspect: namespace, name, the mirror-pod annotation, the owner
reference kinds, and emptyDir volume presence (k8s.rs lines 681-721). -/
structure PodSpec where
  ns : String
  name : String
  isMirrorPod : Bool
  ownerKinds : List String
  hasEmptyDir : Bool
deriving DecidableEq, Repr

/-- k8s.rs lines 694-695: the pod has an owner reference of kind DaemonSet. -/
def isDaemonSetPod (p : PodSpec) : Bool :=
  p.ownerKinds.any (fun k => k == "DaemonSet")

/-- k8s.rs lines 696-703: the pod has an owner reference whose kind is one
of ReplicaSet, Deployment, StatefulSet, Job, DaemonSet. -/
def isManagedPod (p : PodSpec) : Bool :=
  p.ownerKinds.any (fun k =>
    k == "ReplicaSet" || k == "Deployment" || k == "StatefulSet" ||
    k == "Job" || k == "DaemonSet")

/-- The filter of k8s.rs lines 681-728: a pod survives to the eviction list
unless it is a mirror pod, or a DaemonSet pod while ignore_daemonsets is
set, or has an emptyDir volume while delete_emptydir_data is unset. -/
def eligiblePod (opts : DrainOptions) (p : PodSpec) : Bool :=
  !p.isMirrorPod &&
  !(isDaemonSetPod p && opts.ignore_daemonsets) &&
  !(p.hasEmptyDir && !opts.delete_emptydir_data)

/-- The ns/name key format used for failed_pods and force_deleted_pods
entries (k8s.rs lines 850, 871, 878, 913, 933, 940). -/
def podKey (p : PodSpec) : String :=
  p.ns ++ "/" ++ p.name

/-- k8s.rs line 742: max_attempts = (per_pod_timeout_secs / 2).max(1),
with u64 (truncating) division. -/
def maxAttemptsFor (opts : DrainOptions) : Nat :=
  max (opts.per_pod_timeout_secs / 2) 1

/-- The force-delete-or-fail branch shared by the other-error path
(k8s.rs lines 833-882) and the retry-exhaustion path (lines 896-944):
when force_delete_unmanaged is set and the pod is unmanaged, issue a
direct delete and record force-deleted on success, failed otherwise;
with the flag off or a managed pod, record failed with no delete call. -/
def forceOrFail (delOk : Bool) (force : Bool) (isManaged : Bool)
    (ns : String) (name : String) : PodFate × List DrainEvent :=
  if force && !isManaged then
    if delOk then (PodFate.forceDeleted, [DrainEvent.deleteCall ns name])
    else (PodFate.failed, [DrainEvent.deleteCall ns name])
  else (PodFate.failed, [])

/-- The per-pod retry loop of k8s.rs lines 766-945.  The oracle evictO a
gives the classified outcome of the eviction call made with the attempts
counter equal to a; delOk gives the outcome of the (at most one) direct
delete.  remaining is the number of loop iterations still permitted,
i.e. max_attempts minus the attempts counter; the counter advances only
on a pdbBlocked outcome, exactly as in the source, where only the PDB
branch increments attempts and every other branch leaves the loop.
When the budget is exhausted the post-loop force-or-fail block of lines
888-945 runs. -/
def evictLoop (evictO : Nat → EvictOutcome) (delOk : Bool) (force : Bool)
    (isManaged : Bool) (ns : String) (name : String) :
    Nat → Nat → PodFate × List DrainEvent
  | _, 0 => forceOrFail delOk force isManaged ns name
  | a, remaining + 1 =>
    match evictO a with
    | EvictOutcome.ok => (PodFate.evicted, [DrainEvent.evictCall ns name])
    | EvictOutcome.notFound => (PodFate.evicted, [DrainEvent.evictCall ns name])
    | EvictOutcome.pdbBlocked =>
      let r := evictLoop evictO delOk force isManaged ns name (a + 1) remaining
      (r.1, DrainEvent.evictCall ns name :: r.2)
    | EvictOutcome.otherError =>
      let r := forceOrFail delOk force isManaged ns name
      (r.1, DrainEvent.evictCall ns name :: r.2)

/-- Drive the retry loop for one eviction candidate, starting with the
attempts counter at zero and the full max_attempts budget. -/
def processPod (evictO : String → String → Nat → EvictOutcome)
    (delOk : String → String → Bool) (opts : DrainOptions) (p : PodSpec) :
    PodFate × List DrainEvent :=
  evictLoop (evictO p.ns p.name) (delOk p.ns p.name)
    opts.force_delete_unmanaged (isManagedPod p) p.ns p.name
    0 (maxAttemptsFor opts)

/-- The accumulation over the eviction candidates, in listed order
(k8s.rs lines 730-733 and 750-946): evicted counter, failed_pods,
force_deleted_pods, and the trace of mutating API calls issued. -/
def processPods (evictO : String → String → Nat → EvictOutcome)
    (delOk : String → String → Bool) (opts : DrainOptions) :
    List PodSpec → Nat × List String × List String × List DrainEvent
  | [] => (0, [], [], [])
  | p :: rest =>
    let r := processPod evictO delOk opts p
    let acc := processPods evictO delOk opts rest
    (fateEvictedDelta r.1 + acc.1,
     (if fateFailed r.1 then [podKey p] else []) ++ acc.2.1,
     (if fateForceDeleted r.1 then [podKey p] else []) ++ acc.2.2.1,
     r.2 ++ acc.2.2.2)

/-- Model of drain_node_with_progress (k8s.rs lines 660-956): filter the
listed pods, run the eviction loop on each candidate in order, and build
the DrainResult of lines 948-955, whose success flag is failed_pods
emptiness and whose error field is None.  Also returns the trace of
eviction and delete calls issued. -/
def drain_node_with_progress (evictO : String → String → Nat → EvictOutcome)
    (delOk : String → String → Bool) (node_name : String)
    (opts : DrainOptions) (podList : List PodSpec) :
    DrainResult × List DrainEvent :=
  let c := processPods evictO delOk opts (podList.filter (eligiblePod opts))
  ({ node := node_name
     success := c.2.1.isEmpty
     pods_evicted := c.1
     failed_pods := c.2.1
     force_deleted_pods := c.2.2.1
     error := none }, c.2.2.2)

/-- Mirror of the PDB status fields read at k8s.rs lines 484-487 (i32 in
the source, modelled as Int). -/
structure PdbStatusRec where
  current_healthy : Int
  desired_healthy : Int
  disruptions_allowed : Int
  expected_pods : Int
deriving DecidableEq, Repr

/-- A listed PodDisruptionBudget as check_pdb_health consumes it: metadata
name and namespace plus an optional status block. -/
structure PdbRec where
  name : String
  ns : String
  status : Option PdbStatusRec
deriving DecidableEq, Repr

/-- Mirror of struct PdbInfo (k8s.rs lines 417-433). -/
structure PdbInfo where
  name : String
  ns : String
  current_healthy : Int
  desired_healthy : Int
  disruptions_allowed : Int
  expected_pods : Int
  would_block_drain : Bool
deriving DecidableEq, Repr

/-- Mirror of struct PdbHealthInfo (k8s.rs lines 436-442). -/
structure PdbHealthInfo where
  pdbs : List PdbInfo
  blocking_pdbs : List PdbInfo
deriving DecidableEq, Repr

/-- The per-PDB record built in the body of check_pdb_health (k8s.rs lines
479-500): each status field defaults to 0 when status is absent, and
would_block_drain is disruptions_allowed == 0 && expected_pods > 0. -/
def pdbInfoOf (pdb : PdbRec) : PdbInfo :=
  let current_healthy := (pdb.status.map fun s => s.current_healthy).getD 0
  let desired_healthy := (pdb.status.map fun s => s.desired_healthy).getD 0
  let disruptions_allowed := (pdb.status.map fun s => s.disruptions_allowed).getD 0
  let expected_pods := (pdb.status.map fun s => s.expected_pods).getD 0
  { name := pdb.name
    ns := pdb.ns
    current_healthy := current_healthy
    desired_healthy := desired_healthy
    disruptions_allowed := disruptions_allowed
    expected_pods := expected_pods
    would_block_drain := (disruptions_allowed == 0) && decide (expected_pods > 0) }

/-- Model of check_pdb_health (k8s.rs lines 469-509): every listed PDB is
recorded in pdbs, and those whose would_block_drain flag is set are also
recorded in blocking_pdbs, both in listing order. -/
def check_pdb_health : List PdbRec → PdbHealthInfo
  | [] => { pdbs := [], blocking_pdbs := [] }
  | pdb :: rest =>
    let info := pdbInfoOf pdb
    let r := check_pdb_health rest
    { pdbs := info :: r.pdbs
      blocking_pdbs :=
        if info.would_block_drain then info :: r.blocking_pdbs
        else r.blocking_pdbs }

/-- Mirror of enum K8sError (k8s.rs lines 15-25). -/
inductive K8sError
  | KubeconfigFetch (msg : String)
  | KubeconfigParse (msg : String)
  | ClientCreate (msg : String)
  | ApiError (msg : String)
deriving DecidableEq, Repr

/-- Mirror of struct CordonResult (k8s.rs lines 514-522). -/
structure CordonResult where
  node : String
  success : Bool
  error : Option String
deriving DecidableEq, Repr

/-- Model of cordon_node (k8s.rs lines 578-603).  The oracle patchO b gives
the outcome of the node patch that sets unschedulable to b; cordon patches
it to true.  Both match arms wrap the outcome in Ok. -/
def cordon_node (patchO : Bool → Except String Unit) (node_name : String) :
    Except K8sError CordonResult :=
  match patchO true with
  | Except.ok _ =>
    Except.ok { node := node_name, success := true, error := none }
  | Except.error e =>
    Except.ok { node := node_name, success := false, error := some e }

/-- Model of uncordon_node (k8s.rs lines 606-631): identical to cordon_node
except the patch sets unschedulable to false. -/
def uncordon_node (patchO : Bool → Except String Unit) (node_name : String) :
    Except K8sError CordonResult :=
  match patchO false with
  | Except.ok _ =>
    Except.ok { node := node_name, success := true, error := none }
  | Except.error e =>
    Except.ok { node := node_name, success := false, error := some e }

/-- Mirror of enum NodeConditionStatus (k8s.rs lines 972-977). -/
inductive NodeConditionStatus
  | Ready
  | NotReady
  | Unknown
deriving DecidableEq, Repr

/-- Mirror of struct NodeReadyResult (k8s.rs lines 961-969); the u64
time_taken_secs is a Nat. -/
structure NodeReadyResult where
  success : Bool
  time_taken_secs : Nat
  error : Option String
deriving DecidableEq, Repr

/-- The failure message of k8s.rs lines 1087-1090. -/
def timeoutMessage (timeout_secs : Nat) : String :=
  "Timed out waiting for node after " ++ toString timeout_secs ++ "s"

/-- Phase 1 of wait_for_node_ready (k8s.rs lines 1034-1073): poll the node
status until a NotReady, Unknown or error outcome is seen or 60 seconds
elapse; each Ready observation sleeps 2 seconds.  The oracle probe t gives
the get_node_ready_status outcome at elapsed time t; the function returns
the elapsed time at which the phase exits.  Polling consumes no modelled
time; only the sleeps advance the clock. -/
def phase1Elapsed (probe : Nat → Except String NodeConditionStatus)
    (t : Nat) : Nat :=
  if t < 60 then
    match probe t with
    | Except.ok NodeConditionStatus.Ready => phase1Elapsed probe (t + 2)
    | _ => t
  else t
termination_by 60 - t
decreasing_by omega

/-- Phase 2 of wait_for_node_ready (k8s.rs lines 1080-1132): each
iteration first compares the elapsed time on the clock started at function
entry against timeout_secs, returning failure once it is reached; then
polls, returning success on Ready and sleeping 5 seconds otherwise (a
probe error keeps polling). -/
def phase2 (probe : Nat → Except String NodeConditionStatus)
    (timeout_secs : Nat) (t : Nat) : NodeReadyResult :=
  if timeout_secs ≤ t then
    { success := false, time_taken_secs := t
      error := some (timeoutMessage timeout_secs) }
  else
    match probe t with
    | Except.ok NodeConditionStatus.Ready =>
      { success := true, time_taken_secs := t, error := none }
    | _ => phase2 probe timeout_secs (t + 5)
termination_by timeout_secs - t
decreasing_by omega

/-- Model of wait_for_node_ready (k8s.rs lines 1023-1133): one clock is
started at entry (line 1030); the optional disconnect phase runs first and
the ready phase then polls on the same clock. -/
def wait_for_node_ready (probe : Nat → Except String NodeConditionStatus)
    (timeout_secs : Nat) (wait_for_disconnect : Bool) : NodeReadyResult :=
  let t1 := if wait_for_disconnect then phase1Elapsed probe 0 else 0
  phase2 probe timeout_secs t1

/-- Modelled from the words of claim C3 for comparison with the source:
a Phase 2 whose timeout budget is measured from the entry into Phase 2
(elapsed time t minus the phase start t0), so that disconnect-phase time
does not count against timeout_secs. -/
def phase2IndependentSpec (probe : Nat → Except String NodeConditionStatus)
    (timeout_secs : Nat) (t0 : Nat) (t : Nat) : NodeReadyResult :=
  if timeout_secs ≤ t - t0 then
    { success := false, time_taken_secs := t
      error := some (timeoutMessage timeout_secs) }
  else
    match probe t with
    | Except.ok NodeConditionStatus.Ready =>
      { success := true, time_taken_secs := t, error := none }
    | _ => phase2IndependentSpec probe timeout_secs t0 (t + 5)
termination_by (t0 + timeout_secs) - t
decreasing_by omega

/-- Modelled from the words of claim C3: wait_for_node_ready as it would
behave if the two phases had independent timeouts. -/
def wait_for_node_ready_independent
    (probe : Nat → Except String NodeConditionStatus)
    (timeout_secs : Nat) (wait_for_disconnect : Bool) : NodeReadyResult :=
  let t1 := if wait_for_disconnect then phase1Elapsed probe 0 else 0
  phase2IndependentSpec probe timeout_secs t1 t1

/-
  Helper lemmas about the drain eviction loop and its accumulation.
-/

theorem fate_accounting (f : PodFate) :
    fateEvictedDelta f + (if fateFailed f then 1 else 0) = 1 ∧
    (if fateForceDeleted f then 1 else 0) ≤ fateEvictedDelta f := by
  cases f <;> simp [fateEvictedDelta, fateFailed, fateForceDeleted]

theorem processPods_accounting (evictO : String → String → Nat → EvictOutcome)
    (delOk : String → String → Bool) (opts : DrainOptions) (l : List PodSpec) :
    (processPods evictO delOk opts l).1 +
      (processPods evictO delOk opts l).2.1.length = l.length ∧
    (processPods evictO delOk opts l).2.2.1.length ≤
      (processPods evictO delOk opts l).1 := by
  induction l with
  | nil => simp [processPods]
  | cons p rest ih =>
    have hf := fate_accounting (processPod evictO delOk opts p).1
    simp only [processPods, List.length_append, List.length_cons]
    constructor
    · rcases hf with ⟨h1, _⟩
      by_cases hc : fateFailed (processPod evictO delOk opts p).1 = true <;>
        simp [hc] at h1 ⊢ <;> omega
    · rcases hf with ⟨h1, h2⟩
      by_cases hc : fateForceDeleted (processPod evictO delOk opts p).1 = true <;>
        simp [hc] at h2 ⊢ <;> omega

theorem forceOrFail_delete_mem (delOk force isM : Bool) (ns name ns1 name1 : String)
    (h : DrainEvent.deleteCall ns1 name1 ∈ (forceOrFail delOk force isM ns name).2) :
    force = true ∧ isM = false ∧ ns1 = ns ∧ name1 = name := by
  unfold forceOrFail at h
  by_cases hf : (force && !isM) = true
  · rw [if_pos hf] at h
    simp only [Bool.and_eq_true, Bool.not_eq_eq_eq_not, Bool.not_true] at hf
    by_cases hd : delOk = true <;> simp [hd] at h <;>
      exact ⟨hf.1, hf.2, h.1, h.2⟩
  · rw [if_neg hf] at h
    simp at h

theorem evictLoop_event_shape (evictO : Nat → EvictOutcome)
    (delOk force isM : Bool) (ns name : String) :
    ∀ remaining a e, e ∈ (evictLoop evictO delOk force isM ns name a remaining).2 →
      e = DrainEvent.evictCall ns name ∨ e = DrainEvent.deleteCall ns name := by
  intro remaining
  induction remaining with
  | zero =>
    intro a e he
    unfold evictLoop forceOrFail at he
    by_cases hf : (force && !isM) = true
    · rw [if_pos hf] at he
      by_cases hd : delOk = true <;> simp [hd] at he <;> simp [he]
    · rw [if_neg hf] at he
      simp at he
  | succ n ih =>
    intro a e he
    unfold evictLoop at he
    rcases ho : evictO a with _ | _ | _ | _ <;> rw [ho] at he
    · simp at he; simp [he]
    · simp at he; simp [he]
    · simp only [List.mem_cons] at he
      rcases he with he | he
      · simp [he]
      · exact ih (a + 1) e he
    · simp only [List.mem_cons] at he
      rcases he with he | he
      · simp [he]
      · unfold forceOrFail at he
        by_cases hf : (force && !isM) = true
        · rw [if_pos hf] at he
          by_cases hd : delOk = true <;> simp [hd] at he <;> simp [he]
        · rw [if_neg hf] at he
          simp at he

theorem evictLoop_delete_mem (evictO : Nat → EvictOutcome)
    (delOk force isM : Bool) (ns name ns1 name1 : String) :
    ∀ remaining a,
      DrainEvent.deleteCall ns1 name1 ∈
        (evictLoop evictO delOk force isM ns name a remaining).2 →
      force = true ∧ isM = false ∧ ns1 = ns ∧ name1 = name := by
  intro remaining
  induction remaining with
  | zero =>
    intro a h
    exact forceOrFail_delete_mem delOk force isM ns name ns1 name1 h
  | succ n ih =>
    intro a h
    unfold evictLoop at h
    rcases ho : evictO a with _ | _ | _ | _ <;> rw [ho] at h
    · simp at h
    · simp at h
    · simp only [List.mem_cons] at h
      rcases h with h | h
      · simp at h
      · exact ih (a + 1) h
    · simp only [List.mem_cons] at h
      rcases h with h | h
      · simp at h
      · exact forceOrFail_delete_mem delOk force isM ns name ns1 name1 h

theorem processPods_event_mem (evictO : String → String → Nat → EvictOutcome)
    (delOk : String → String → Bool) (opts : DrainOptions) (l : List PodSpec)
    (e : DrainEvent) (he : e ∈ (processPods evictO delOk opts l).2.2.2) :
    ∃ p, p ∈ l ∧ e ∈ (processPod evictO delOk opts p).2 := by
  induction l with
  | nil => simp [processPods] at he
  | cons p rest ih =>
    simp only [processPods, List.mem_append] at he
    rcases he with he | he
    · exact ⟨p, List.mem_cons_self p rest, he⟩
    · rcases ih he with ⟨q, hq, hqe⟩
      exact ⟨q, List.mem_cons_of_mem p hq, hqe⟩

theorem forceOrFail_flag_off (delOk isM : Bool) (ns name : String) :
    forceOrFail delOk false isM ns name = (PodFate.failed, []) := by
  simp [forceOrFail]

theorem evictLoop_fate_cases (evictO : Nat → EvictOutcome)
    (delOk force isM : Bool) (ns name : String) :
    ∀ remaining a,
      (evictLoop evictO delOk force isM ns name a remaining).1 = PodFate.evicted ∨
      (evictLoop evictO delOk force isM ns name a remaining).1 =
        (forceOrFail delOk force isM ns name).1 := by
  intro remaining
  induction remaining with
  | zero => intro a; right; rfl
  | succ n ih =>
    intro a
    unfold evictLoop
    rcases ho : evictO a with _ | _ | _ | _
    · left; rfl
    · left; rfl
    · exact ih (a + 1)
    · right; rfl

theorem evictLoop_blocked_run (evictO : Nat → EvictOutcome)
    (delOk force isM : Bool) (ns name : String) :
    ∀ remaining a,
      (∀ b, a ≤ b → b < a + remaining → evictO b = EvictOutcome.pdbBlocked) →
      (evictLoop evictO delOk force isM ns name a remaining).1 =
        (forceOrFail delOk force isM ns name).1 := by
  intro remaining
  induction remaining with
  | zero => intro a _; rfl
  | succ n ih =>
    intro a hb
    have ha : evictO a = EvictOutcome.pdbBlocked := hb a (Nat.le_refl a) (by omega)
    unfold evictLoop
    rw [ha]
    exact ih (a + 1) (fun b h1 h2 => hb b (by omega) (by omega))

theorem evictLoop_first_decisive (evictO : Nat → EvictOutcome)
    (delOk force isM : Bool) (ns name : String) :
    ∀ remaining a c, a ≤ c → c < a + remaining →
      (∀ b, a ≤ b → b < c → evictO b = EvictOutcome.pdbBlocked) →
      ((evictO c = EvictOutcome.ok ∨ evictO c = EvictOutcome.notFound) →
        (evictLoop evictO delOk force isM ns name a remaining).1 =
          PodFate.evicted) ∧
      (evictO c = EvictOutcome.otherError →
        (evictLoop evictO delOk force isM ns name a remaining).1 =
          (forceOrFail delOk force isM ns name).1) := by
  intro remaining
  induction remaining with
  | zero => intro a c h1 h2 _; omega
  | succ n ih =>
    intro a c h1 h2 hb
    by_cases hac : a = c
    · subst hac
      constructor
      · intro hc
        rcases hc with hc | hc <;> (unfold evictLoop; rw [hc])
      · intro hc
        unfold evictLoop
        rw [hc]
    · have ha : evictO a = EvictOutcome.pdbBlocked := hb a (Nat.le_refl a) (by omega)
      have := ih (a + 1) c (by omega) (by omega)
        (fun b hb1 hb2 => hb b (by omega) hb2)
      constructor
      · intro hc
        unfold evictLoop
        rw [ha]
        exact this.1 hc
      · intro hc
        unfold evictLoop
        rw [ha]
        exact this.2 hc

theorem processPods_forceDeleted_nil (evictO : String → String → Nat → EvictOutcome)
    (delOk : String → String → Bool) (opts : DrainOptions) (l : List PodSpec)
    (h : ∀ p, p ∈ l → fateForceDeleted (processPod evictO delOk opts p).1 = false) :
    (processPods evictO delOk opts l).2.2.1 = [] := by
  induction l with
  | nil => rfl
  | cons p rest ih =>
    simp only [processPods]
    rw [h p (List.mem_cons_self p rest)]
    simp only [if_neg Bool.false_ne_true, List.nil_append]
    exact ih (fun q hq => h q (List.mem_cons_of_mem p hq))

theorem processPods_failed_mem (evictO : String → String → Nat → EvictOutcome)
    (delOk : String → String → Bool) (opts : DrainOptions) (l : List PodSpec)
    (p : PodSpec) (hp : p ∈ l)
    (hf : fateFailed (processPod evictO delOk opts p).1 = true) :
    podKey p ∈ (processPods evictO delOk opts l).2.1 := by
  induction l with
  | nil => simp at hp
  | cons q rest ih =>
    simp only [processPods, List.mem_append]
    rcases List.mem_cons.mp hp with hq | hq
    · subst hq
      left
      rw [hf]
      simp
    · right
      exact ih hq

theorem phase2_sound (probe : Nat → Except String NodeConditionStatus)
    (timeout_secs : Nat) :
    ∀ t, t ≤ (phase2 probe timeout_secs t).time_taken_secs ∧
      ((phase2 probe timeout_secs t).success = false →
        timeout_secs ≤ (phase2 probe timeout_secs t).time_taken_secs) ∧
      ((phase2 probe timeout_secs t).success = true →
        (phase2 probe timeout_secs t).time_taken_secs < timeout_secs ∧
        probe (phase2 probe timeout_secs t).time_taken_secs =
          Except.ok NodeConditionStatus.Ready) := by
  intro t
  induction t using phase2.induct probe timeout_secs with
  | case1 t ht =>
    rw [phase2]
    simp [ht]
  | case2 t ht hp =>
    rw [phase2]
    simp [if_neg ht, hp]
    omega
  | case3 t ht hp ih =>
    rw [phase2, if_neg ht]
    have hstep : (match probe t with
        | Except.ok NodeConditionStatus.Ready =>
          ({ success := true, time_taken_secs := t, error := none } : NodeReadyResult)
        | _ => phase2 probe timeout_secs (t + 5)) =
        phase2 probe timeout_secs (t + 5) := by
      rcases hpt : probe t with e | s
      · rfl
      · cases s with
        | Ready => exact absurd hpt hp
        | NotReady => rfl
        | Unknown => rfl
    rw [hstep]
    refine ⟨by omega, ih.2.1, ih.2.2⟩

/-
  Claim theorems.
-/

/-- Claim C1: for every invocation of drain_node_with_progress, the success
flag of the returned DrainResult is the emptiness of its failed_pods list
(k8s.rs line 950 computes success as failed_pods.is_empty()). -/
theorem c1_drain_success_iff_no_failed
    (evictO : String → String → Nat → EvictOutcome)
    (delOk : String → String → Bool) (node_name : String)
    (opts : DrainOptions) (podList : List PodSpec) :
    (drain_node_with_progress evictO delOk node_name opts podList).1.success =
    (drain_node_with_progress evictO delOk node_name opts podList).1.failed_pods.isEmpty :=
  rfl

/-- Claim C10: every eviction candidate (a pod surviving the mirror,
DaemonSet and emptyDir filters) is accounted for exactly once, so the
evicted counter plus the failed_pods length equals the number of
candidates, and force-deleted pods are counted inside pods_evicted, so
the force_deleted_pods length never exceeds pods_evicted. -/
theorem c10_drain_accounting
    (evictO : String → String → Nat → EvictOutcome)
    (delOk : String → String → Bool) (node_name : String)
    (opts : DrainOptions) (podList : List PodSpec) :
    (drain_node_with_progress evictO delOk node_name opts podList).1.pods_evicted +
      (drain_node_with_progress evictO delOk node_name opts podList).1.failed_pods.length =
      (podList.filter (eligiblePod opts)).length ∧
    (drain_node_with_progress evictO delOk node_name opts podList).1.force_deleted_pods.length ≤
      (drain_node_with_progress evictO delOk node_name opts podList).1.pods_evicted :=
  processPods_accounting evictO delOk opts (podList.filter (eligiblePod opts))

/-- Claim C4: the per-pod retry bound used by the drain is
max_attempts = max(1, per_pod_timeout_secs / 2) with truncating integer
division; in particular a 30 second per-pod timeout gives 15 attempts and
a 1 second per-pod timeout gives 1 attempt. -/
theorem c4_max_attempts (opts : DrainOptions) :
    maxAttemptsFor opts = max 1 (opts.per_pod_timeout_secs / 2) ∧
    (opts.per_pod_timeout_secs = 30 → maxAttemptsFor opts = 15) ∧
    (opts.per_pod_timeout_secs = 1 → maxAttemptsFor opts = 1) := by
  refine ⟨Nat.max_comm _ _, ?_, ?_⟩ <;>
    intro h <;> simp [maxAttemptsFor, h]

/-- Witness for c4_max_attempts at the default options, whose per-pod
timeout is 30 seconds. -/
theorem c4_max_attempts_witness : maxAttemptsFor drainOptionsDefault = 15 :=
  (c4_max_attempts drainOptionsDefault).2.1 rfl

/-- Claim C5: a pod whose eviction request returns a not-found response
(after any run of PDB-blocked retries) is treated as already-evicted
success: its fate contributes one to the evicted counter and it is not
recorded as failed. -/
theorem c5_not_found_counts_evicted (evictO : Nat → EvictOutcome)
    (delOk force isM : Bool) (ns name : String) (maxA : Nat) (a : Nat)
    (ha : a < maxA) (hnf : evictO a = EvictOutcome.notFound)
    (hblocked : ∀ b, b < a → evictO b = EvictOutcome.pdbBlocked) :
    (evictLoop evictO delOk force isM ns name 0 maxA).1 = PodFate.evicted ∧
    fateEvictedDelta (evictLoop evictO delOk force isM ns name 0 maxA).1 = 1 ∧
    fateFailed (evictLoop evictO delOk force isM ns name 0 maxA).1 = false := by
  have h := (evictLoop_first_decisive evictO delOk force isM ns name maxA 0 a
    (Nat.zero_le a) (by omega) (fun b _ hb2 => hblocked b hb2)).1
    (Or.inr hnf)
  rw [h]
  exact ⟨rfl, rfl, rfl⟩

/-- Witness for c5_not_found_counts_evicted: a single-attempt loop whose
first eviction call reports not found. -/
theorem c5_witness :
    (evictLoop (fun _ => EvictOutcome.notFound) true false false
      "default" "web-0" 0 1).1 = PodFate.evicted :=
  (c5_not_found_counts_evicted (fun _ => EvictOutcome.notFound) true false false
    "default" "web-0" 1 0 (by omega) rfl (fun b hb => absurd hb (by omega))).1

/-- Claim C2: a direct (force) delete is attempted only when
force_delete_unmanaged is true and the pod is unmanaged; and with the flag
off no pod is ever force-deleted, while an unmanaged candidate whose
eviction ends in a non-PDB failure or in retry exhaustion is recorded in
failed_pods. -/
theorem c2_force_delete_scope
    (evictO : String → String → Nat → EvictOutcome)
    (delOk : String → String → Bool) (node_name : String)
    (opts : DrainOptions) (podList : List PodSpec) (p : PodSpec)
    (ns name : String) :
    (DrainEvent.deleteCall ns name ∈
        (drain_node_with_progress evictO delOk node_name opts podList).2 →
      opts.force_delete_unmanaged = true ∧
      ∃ q, q ∈ podList.filter (eligiblePod opts) ∧ q.ns = ns ∧ q.name = name ∧
        isManagedPod q = false) ∧
    (opts.force_delete_unmanaged = false →
      (drain_node_with_progress evictO delOk node_name opts podList).1.force_deleted_pods = [] ∧
      (p ∈ podList.filter (eligiblePod opts) → isManagedPod p = false →
        ((∃ a, a < maxAttemptsFor opts ∧
            evictO p.ns p.name a = EvictOutcome.otherError ∧
            ∀ b, b < a → evictO p.ns p.name b = EvictOutcome.pdbBlocked) ∨
          (∀ b, b < maxAttemptsFor opts →
            evictO p.ns p.name b = EvictOutcome.pdbBlocked)) →
        podKey p ∈ (drain_node_with_progress evictO delOk node_name opts podList).1.failed_pods)) := by
  constructor
  · intro h
    obtain ⟨q, hq, hqe⟩ := processPods_event_mem evictO delOk opts
      (podList.filter (eligiblePod opts)) (DrainEvent.deleteCall ns name) h
    have hd := evictLoop_delete_mem (evictO q.ns q.name) (delOk q.ns q.name)
      opts.force_delete_unmanaged (isManagedPod q) q.ns q.name ns name
      (maxAttemptsFor opts) 0 hqe
    exact ⟨hd.1, q, hq, hd.2.2.1.symm, hd.2.2.2.symm, hd.2.1⟩
  · intro hflag
    constructor
    · refine processPods_forceDeleted_nil evictO delOk opts
        (podList.filter (eligiblePod opts)) ?_
      intro q _
      have hc := evictLoop_fate_cases (evictO q.ns q.name) (delOk q.ns q.name)
        opts.force_delete_unmanaged (isManagedPod q) q.ns q.name
        (maxAttemptsFor opts) 0
      unfold processPod
      rcases hc with hc | hc
      · rw [hc]; rfl
      · rw [hflag] at hc
        rw [forceOrFail_flag_off] at hc
        rw [hflag, hc]
        rfl
    · intro hp hm hcond
      have hfail : fateFailed (processPod evictO delOk opts p).1 = true := by
        unfold processPod
        rcases hcond with ⟨a, ha, hother, hblocked⟩ | hall
        · have hd := (evictLoop_first_decisive (evictO p.ns p.name)
            (delOk p.ns p.name) opts.force_delete_unmanaged (isManagedPod p)
            p.ns p.name (maxAttemptsFor opts) 0 a (Nat.zero_le a) (by omega)
            (fun b _ hb2 => hblocked b hb2)).2 hother
          rw [hflag] at hd
          rw [forceOrFail_flag_off] at hd
          rw [hflag, hd]
          rfl
        · have hd := evictLoop_blocked_run (evictO p.ns p.name)
            (delOk p.ns p.name) opts.force_delete_unmanaged (isManagedPod p)
            p.ns p.name (maxAttemptsFor opts) 0 (fun b _ hb2 => hall b (by omega))
          rw [hflag] at hd
          rw [forceOrFail_flag_off] at hd
          rw [hflag, hd]
          rfl
      exact processPods_failed_mem evictO delOk opts
        (podList.filter (eligiblePod opts)) p hp hfail

/-- The unmanaged pod used to witness c2_force_delete_scope. -/
def c2Pod : PodSpec :=
  { ns := "default", name := "solo", isMirrorPod := false,
    ownerKinds := [], hasEmptyDir := false }

/-- Witness for c2_force_delete_scope: with force_delete_unmanaged off, an
unmanaged pod whose eviction hits a non-PDB error lands in failed_pods. -/
theorem c2_witness :
    podKey c2Pod ∈ (drain_node_with_progress (fun _ _ _ => EvictOutcome.otherError)
      (fun _ _ => true) "w1" drainOptionsDefault [c2Pod]).1.failed_pods :=
  ((c2_force_delete_scope (fun _ _ _ => EvictOutcome.otherError)
      (fun _ _ => true) "w1" drainOptionsDefault [c2Pod] c2Pod "" "").2 rfl).2
    (by decide) rfl
    (Or.inl ⟨0, by decide, rfl, fun b hb => absurd hb (by omega)⟩)

/-- Claim C7: when ignore_daemonsets is true, no eviction call is ever
issued for a DaemonSet-owned pod during a drain (the pod is filtered out
before the eviction loop). -/
theorem c7_daemonset_never_evicted
    (evictO : String → String → Nat → EvictOutcome)
    (delOk : String → String → Bool) (node_name : String)
    (opts : DrainOptions) (podList : List PodSpec) (p : PodSpec)
    (hflag : opts.ignore_daemonsets = true) (_hmem : p ∈ podList)
    (hds : isDaemonSetPod p = true)
    (huniq : ∀ q, q ∈ podList → q.ns = p.ns → q.name = p.name → q = p) :
    DrainEvent.evictCall p.ns p.name ∉
      (drain_node_with_progress evictO delOk node_name opts podList).2 := by
  intro h
  obtain ⟨q, hq, hqe⟩ := processPods_event_mem evictO delOk opts
    (podList.filter (eligiblePod opts)) (DrainEvent.evictCall p.ns p.name) h
  have hshape := evictLoop_event_shape (evictO q.ns q.name) (delOk q.ns q.name)
    opts.force_delete_unmanaged (isManagedPod q) q.ns q.name
    (maxAttemptsFor opts) 0 (DrainEvent.evictCall p.ns p.name) hqe
  have hq2 : q.ns = p.ns ∧ q.name = p.name := by
    rcases hshape with hs | hs
    · simp only [DrainEvent.evictCall.injEq] at hs
      exact ⟨hs.1.symm, hs.2.symm⟩
    · simp at hs
  have hqp : q = p :=
    huniq q (List.mem_filter.mp hq).1 hq2.1 hq2.2
  have hpe : eligiblePod opts p = true := by
    have := (List.mem_filter.mp hq).2
    rwa [hqp] at this
  simp [eligiblePod, hds, hflag] at hpe

/-- The DaemonSet pod used to witness c7_daemonset_never_evicted. -/
def c7Pod : PodSpec :=
  { ns := "kube-system", name := "ds-1", isMirrorPod := false,
    ownerKinds := ["DaemonSet"], hasEmptyDir := false }

/-- Witness for c7_daemonset_never_evicted at a one-pod node with the
default options, whose ignore_daemonsets is on. -/
theorem c7_witness :
    DrainEvent.evictCall c7Pod.ns c7Pod.name ∉
      (drain_node_with_progress (fun _ _ _ => EvictOutcome.ok)
        (fun _ _ => true) "w1" drainOptionsDefault [c7Pod]).2 :=
  c7_daemonset_never_evicted (fun _ _ _ => EvictOutcome.ok) (fun _ _ => true)
    "w1" drainOptionsDefault [c7Pod] c7Pod rfl (by decide) (by decide)
    (fun q hq _ _ => by
      simp only [List.mem_singleton] at hq
      exact hq)

/-- Claim C6: every PdbInfo record built by check_pdb_health has
would_block_drain equal to disruptions_allowed == 0 and expected_pods > 0,
and in particular a record with expected_pods = 0 never blocks, whatever
disruptions_allowed is. -/
theorem c6_pdb_would_block (l : List PdbRec) (info : PdbInfo)
    (h : info ∈ (check_pdb_health l).pdbs) :
    info.would_block_drain =
      ((info.disruptions_allowed == 0) && decide (info.expected_pods > 0)) ∧
    (info.expected_pods = 0 → info.would_block_drain = false) := by
  induction l with
  | nil => simp [check_pdb_health] at h
  | cons pdb rest ih =>
    simp only [check_pdb_health, List.mem_cons] at h
    rcases h with h | h
    · subst h
      refine ⟨rfl, ?_⟩
      intro hz
      have hflag : (pdbInfoOf pdb).would_block_drain =
          (((pdbInfoOf pdb).disruptions_allowed == 0) &&
            decide ((pdbInfoOf pdb).expected_pods > 0)) := rfl
      rw [hflag, hz]
      simp
    · exact ih h

/-- A PDB record with expected_pods = 0 used to witness c6_pdb_would_block. -/
def c6Rec : PdbRec :=
  { name := "pdb-b", ns := "ns-b",
    status := some { current_healthy := 0, desired_healthy := 0,
                     disruptions_allowed := 0, expected_pods := 0 } }

/-- Witness for c6_pdb_would_block: the boundary case expected_pods = 0
never blocks even though disruptions_allowed = 0. -/
theorem c6_witness : (pdbInfoOf c6Rec).would_block_drain = false :=
  (c6_pdb_would_block [c6Rec] (pdbInfoOf c6Rec)
    (by simp [check_pdb_health])).2 rfl

/-- Claim C9: cordon_node and uncordon_node always return the Ok variant;
a patch failure is returned as Ok with success false and the error text
captured in the error field. -/
theorem c9_cordon_never_err (patchO : Bool → Except String Unit)
    (node_name : String) :
    (∃ c, cordon_node patchO node_name = Except.ok c) ∧
    (∃ c, uncordon_node patchO node_name = Except.ok c) ∧
    (∀ e, patchO true = Except.error e →
      cordon_node patchO node_name =
        Except.ok { node := node_name, success := false, error := some e }) ∧
    (∀ e, patchO false = Except.error e →
      uncordon_node patchO node_name =
        Except.ok { node := node_name, success := false, error := some e }) := by
  refine ⟨?_, ?_, ?_, ?_⟩
  · unfold cordon_node
    rcases patchO true with _ | e
    · exact ⟨_, rfl⟩
    · exact ⟨_, rfl⟩
  · unfold uncordon_node
    rcases patchO false with _ | e
    · exact ⟨_, rfl⟩
    · exact ⟨_, rfl⟩
  · intro e he
    unfold cordon_node
    rw [he]
  · intro e he
    unfold uncordon_node
    rw [he]

/-- Witness for c9_cordon_never_err: a failing patch still comes back as
Ok with the error text recorded. -/
theorem c9_witness :
    cordon_node (fun _ => Except.error "patch denied") "cp-1" =
      Except.ok { node := "cp-1", success := false, error := some "patch denied" } :=
  (c9_cordon_never_err (fun _ => Except.error "patch denied") "cp-1").2.2.1
    "patch denied" rfl

theorem phase2_ready_on_grid (probe : Nat → Except String NodeConditionStatus)
    (timeout_secs : Nat) :
    ∀ t, (∃ k, t + 5 * k < timeout_secs ∧
        probe (t + 5 * k) = Except.ok NodeConditionStatus.Ready) →
      (phase2 probe timeout_secs t).success = true := by
  intro t
  induction t using phase2.induct probe timeout_secs with
  | case1 t ht =>
    rintro ⟨k, hk, _⟩
    omega
  | case2 t ht hp =>
    intro _
    rw [phase2]
    simp [if_neg ht, hp]
  | case3 t ht hp ih =>
    rintro ⟨k, hk, hr⟩
    have hk0 : k ≠ 0 := by
      intro hz
      subst hz
      simp only [Nat.mul_zero, Nat.add_zero] at hr
      exact hp hr
    obtain ⟨k1, rfl⟩ := Nat.exists_eq_succ_of_ne_zero hk0
    rw [phase2, if_neg ht]
    have hstep : (match probe t with
        | Except.ok NodeConditionStatus.Ready =>
          ({ success := true, time_taken_secs := t, error := none } : NodeReadyResult)
        | _ => phase2 probe timeout_secs (t + 5)) =
        phase2 probe timeout_secs (t + 5) := by
      rcases hpt : probe t with e | s
      · rfl
      · cases s with
        | Ready => exact absurd hpt hp
        | NotReady => rfl
        | Unknown => rfl
    rw [hstep]
    exact ih ⟨k1, by omega, by rw [show t + 5 + 5 * k1 = t + 5 * (k1 + 1) by omega]; exact hr⟩

/-- Claim C8: wait_for_node_ready reports failure only with elapsed time
at least timeout_secs; reports success only with elapsed time strictly
below timeout_secs and a Ready observation at that instant; when the node
never reports Ready inside the window the result is failure; and when
Ready is observed at one of the 5-second poll instants of the ready phase
before timeout_secs elapses, the result is success. -/
theorem c8_wait_ready_result (probe : Nat → Except String NodeConditionStatus)
    (timeout_secs : Nat) (wfd : Bool) :
    ((wait_for_node_ready probe timeout_secs wfd).success = false →
      timeout_secs ≤ (wait_for_node_ready probe timeout_secs wfd).time_taken_secs) ∧
    ((wait_for_node_ready probe timeout_secs wfd).success = true →
      (wait_for_node_ready probe timeout_secs wfd).time_taken_secs < timeout_secs ∧
      probe (wait_for_node_ready probe timeout_secs wfd).time_taken_secs =
        Except.ok NodeConditionStatus.Ready) ∧
    ((∀ u, u < timeout_secs → probe u ≠ Except.ok NodeConditionStatus.Ready) →
      (wait_for_node_ready probe timeout_secs wfd).success = false) ∧
    ((∃ k, (if wfd then phase1Elapsed probe 0 else 0) + 5 * k < timeout_secs ∧
        probe ((if wfd then phase1Elapsed probe 0 else 0) + 5 * k) =
          Except.ok NodeConditionStatus.Ready) →
      (wait_for_node_ready probe timeout_secs wfd).success = true) := by
  have h := phase2_sound probe timeout_secs
    (if wfd then phase1Elapsed probe 0 else 0)
  refine ⟨h.2.1, h.2.2, ?_, ?_⟩
  · intro hnever
    cases hs : (wait_for_node_ready probe timeout_secs wfd).success with
    | false => rfl
    | true =>
      exfalso
      have hr := h.2.2 hs
      exact hnever _ hr.1 hr.2
  · intro hgrid
    exact phase2_ready_on_grid probe timeout_secs
      (if wfd then phase1Elapsed probe 0 else 0) hgrid

/-- The never-Ready probe used to witness c8_wait_ready_result. -/
def c8Probe : Nat → Except String NodeConditionStatus :=
  fun _ => Except.ok NodeConditionStatus.NotReady

/-- The probe used to witness the success half of c8_wait_ready_result:
Ready is first reported at second ten, which the ready phase polls
(with no disconnect phase the polls run at 0, 5, 10, ...). -/
def c8ReadyProbe : Nat → Except String NodeConditionStatus := fun t =>
  if t = 10 then Except.ok NodeConditionStatus.Ready
  else Except.ok NodeConditionStatus.NotReady

/-- Witness for c8_wait_ready_result: a node that never reports Ready
makes the wait fail, and a node whose Ready report lands on a poll
instant inside the window makes it succeed. -/
theorem c8_witness :
    (wait_for_node_ready c8Probe 5 false).success = false ∧
    (wait_for_node_ready c8ReadyProbe 20 false).success = true :=
  ⟨(c8_wait_ready_result c8Probe 5 false).2.2.1 (fun u _ => by simp [c8Probe]),
   (c8_wait_ready_result c8ReadyProbe 20 false).2.2.2
     ⟨2, by norm_num, by norm_num [c8ReadyProbe]⟩⟩

/-- The probe used to refute claim C3: the node stays Ready for the first
two seconds, is NotReady afterwards, except for a Ready report at second
seven. -/
def c3Probe : Nat → Except String NodeConditionStatus := fun t =>
  if t = 0 then Except.ok NodeConditionStatus.Ready
  else if t = 7 then Except.ok NodeConditionStatus.Ready
  else Except.ok NodeConditionStatus.NotReady

/-- Counterexample for claim C3: with timeout_secs = 6 and the disconnect
wait consuming 2 seconds, the code declares timeout although only 5
seconds of ready-wait time have elapsed, while the independent-timeout
variant the claim describes would have succeeded on the same trace: the
disconnect-phase time does count against the timeout_secs budget. -/
theorem c3_counterexample :
    (wait_for_node_ready c3Probe 6 true).success = false ∧
    (wait_for_node_ready c3Probe 6 true).time_taken_secs -
      phase1Elapsed c3Probe 0 < 6 ∧
    (wait_for_node_ready_independent c3Probe 6 true).success = true := by
  refine ⟨?_, ?_, ?_⟩ <;>
    simp [wait_for_node_ready, wait_for_node_ready_independent,
      phase1Elapsed, phase2, phase2IndependentSpec, c3Probe]

/-- Claim C3 amended: the two phases of wait_for_node_ready share the
single clock started at function entry, so time spent in the disconnect
phase does count against the timeout_secs budget of the ready phase; in
particular, when the disconnect phase consumes at least timeout_secs the
ready wait fails immediately, reporting the total elapsed time. -/
theorem c3_phase1_consumes_budget
    (probe : Nat → Except String NodeConditionStatus) (timeout_secs : Nat)
    (h : timeout_secs ≤ phase1Elapsed probe 0) :
    (wait_for_node_ready probe timeout_secs true).success = false ∧
    (wait_for_node_ready probe timeout_secs true).time_taken_secs =
      phase1Elapsed probe 0 := by
  have hw : wait_for_node_ready probe timeout_secs true =
      phase2 probe timeout_secs (phase1Elapsed probe 0) := by
    simp [wait_for_node_ready]
  rw [hw, phase2, if_pos h]
  exact ⟨rfl, rfl⟩

/-- The probe used to witness c3_phase1_consumes_budget: Ready at the
first poll, NotReady from then on, so the disconnect phase exits after
one 2 second sleep. -/
def c3FlipProbe : Nat → Except String NodeConditionStatus := fun t =>
  if t = 0 then Except.ok NodeConditionStatus.Ready
  else Except.ok NodeConditionStatus.NotReady

/-- Witness for c3_phase1_consumes_budget with timeout_secs = 2 and a
disconnect phase consuming exactly 2 seconds. -/
theorem c3_amended_witness :
    (wait_for_node_ready c3FlipProbe 2 true).success = false :=
  (c3_phase1_consumes_budget c3FlipProbe 2
    (by simp [phase1Elapsed, c3FlipProbe])).1
